import Mathlib

/-!
# Crash/main.cpp : argument parsing and the composition driver

A shallow embedding of `src/Crash/main.cpp`.

* `parse_arguments` is a pure function of the argument vector; `argc` is the
  length of `argv`, and C strings are compared with `strcmp`, i.e. by equality.
* `main` is embedded as a function from the argument vector to the list of
  observable events it performs and the way the process ends.
* The scoped enumerations have underlying type `int`; they are embedded as
  wrapped integers so that the `default:` branches of the two switches of
  `main` are real branches of the model.
* What is not part of the source is a parameter (`Platform`) of the model:
  whether the build defines NDEBUG, which decides what `assert(false)` expands
  to, and what the operating system and the C/C++ runtime do with a raised
  fault.
* A printf event records the call.  What reaches the reader of stdout is a
  separate function (`delivered`) of the run and of the buffering of stdout.
-/

namespace Crash

/-! ## Data model (lines 82-95) -/

/-- The scoped enumeration ErrorType, with underlying type int. -/
structure ErrorType where
  val : Int
  deriving DecidableEq, Repr

namespace ErrorType
def NONE : ErrorType := ⟨0⟩
def SEGFAULT : ErrorType := ⟨1⟩
def ABORT : ErrorType := ⟨2⟩
def CPP_UNHANDLED : ErrorType := ⟨3⟩
def CPP_HANDLED : ErrorType := ⟨4⟩
def PVC : ErrorType := ⟨5⟩
end ErrorType

/-- The scoped enumeration CatchMethod, with underlying type int. -/
structure CatchMethod where
  val : Int
  deriving DecidableEq, Repr

namespace CatchMethod
def NONE : CatchMethod := ⟨0⟩
def VECTORED0 : CatchMethod := ⟨1⟩
def VECTORED1 : CatchMethod := ⟨2⟩
def SUHF : CatchMethod := ⟨3⟩
def SIGNAL : CatchMethod := ⟨4⟩
end CatchMethod

/-- The struct Args with its default member initialisers. -/
structure Args where
  threading : Bool := false
  seh : Bool := false
  error : ErrorType := ErrorType.NONE
  catch_method : CatchMethod := CatchMethod.NONE
  deriving DecidableEq, Repr

/-! ## Argument parsing (lines 97-142) -/

/-- The two overloads of compare_arg: the one-candidate overload is
`!strcmp(value, arg0)`, the variadic one is
`compare_arg(value, arg0) || compare_arg(value, argn...)`. -/
def compare_arg (value arg0 : String) : List String → Bool
  | [] => value == arg0
  | arg1 :: argn => (value == arg0) || compare_arg value arg1 argn

/-- The body of the for loop of parse_arguments for one entry `val`. -/
def parse_step (result : Args) (val : String) : Args :=
  if compare_arg val "-t" ["--thread"] then { result with threading := true }
  else if compare_arg val "--seh" [] then { result with seh := true }
  else if compare_arg val "-s" ["--segfault"] then { result with error := ErrorType.SEGFAULT }
  else if compare_arg val "-a" ["--abort"] then { result with error := ErrorType.ABORT }
  else if compare_arg val "-p" ["--pure"] then { result with error := ErrorType.PVC }
  else if compare_arg val "--cppu" [] then { result with error := ErrorType.CPP_UNHANDLED }
  else if compare_arg val "--cpph" [] then { result with error := ErrorType.CPP_HANDLED }
  else if compare_arg val "--vectored0" [] then
    { result with catch_method := CatchMethod.VECTORED0 }
  else if compare_arg val "--vectored1" [] then
    { result with catch_method := CatchMethod.VECTORED1 }
  else if compare_arg val "--suhf" [] then { result with catch_method := CatchMethod.SUHF }
  else if compare_arg val "--signal" [] then { result with catch_method := CatchMethod.SIGNAL }
  else result

/-- The function parse_arguments: the loop runs over `argv[0] .. argv[argc-1]`,
starting from a default-initialised Args. -/
def parse_arguments (argv : List String) : Args :=
  argv.foldl parse_step {}

/-! ## The flag table of the specification, read with last-write-wins -/

/-- The fault-class column of the flag table. -/
def faultFlag (a : String) : Option ErrorType :=
  if a = "-s" ∨ a = "--segfault" then some ErrorType.SEGFAULT
  else if a = "-a" ∨ a = "--abort" then some ErrorType.ABORT
  else if a = "-p" ∨ a = "--pure" then some ErrorType.PVC
  else if a = "--cppu" then some ErrorType.CPP_UNHANDLED
  else if a = "--cpph" then some ErrorType.CPP_HANDLED
  else none

/-- The interception-mechanism column of the flag table. -/
def mechanismFlag (a : String) : Option CatchMethod :=
  if a = "--vectored0" then some CatchMethod.VECTORED0
  else if a = "--vectored1" then some CatchMethod.VECTORED1
  else if a = "--suhf" then some CatchMethod.SUHF
  else if a = "--signal" then some CatchMethod.SIGNAL
  else none

/-- The worker-context flag. -/
def threadFlag (a : String) : Bool := decide (a = "-t" ∨ a = "--thread")

/-- The local-guard flag. -/
def sehFlag (a : String) : Bool := decide (a = "--seh")

/-- The flag table read with last-write-wins over a whole argument vector. -/
def lastWriteWins (argv : List String) : Args where
  threading := argv.any threadFlag
  seh := argv.any sehFlag
  error := ((argv.filterMap faultFlag).getLast?).getD ErrorType.NONE
  catch_method := ((argv.filterMap mechanismFlag).getLast?).getD CatchMethod.NONE

/-! ## Observable events and control -/

/-- The two signals registered by set_signal_handlers. -/
inductive Signal
  | SIGSEGV
  | SIGABRT
  deriving DecidableEq, Repr

/-- The handler functions defined in the source file (lines 9-52). -/
inductive Callback
  | _sigsegvhandler
  | _sigaborthandler
  | my_vectored_handler
  | my_unhandled_excetion_filter
  deriving DecidableEq, Repr

/-- The faults the routines raise: `int res = *val` with `val` a null pointer to
volatile, a failed assertion (`assert(false)` in a build without NDEBUG),
`throw std::runtime_error(...)`, and a call of the pure virtual `A::init`. -/
inductive Fault
  | accessViolation
  | assertFailure
  | cppThrow
  | pureVirtualCall
  deriving DecidableEq, Repr

/-- One observable step of a run.  A printf event records the call; whether the
stream is flushed before the process ends is not modelled. -/
inductive Event
  | printf (s : String)
  | fflush_stdout
  | signal (sig : Signal) (handler : Callback)
  | AddVectoredExceptionHandler (first : Int) (handler : Callback)
  | SetUnhandledExceptionFilter (handler : Callback)
  | seh_enter
  | thread_start
  | thread_join
  | fault (f : Fault)
  deriving DecidableEq, Repr

/-- How the process ends: by `exit(code)` or a return from main, or killed by
the platform with a status the source does not determine. -/
inductive Status
  | exited (code : Int)
  | killed (f : Fault)
  deriving DecidableEq, Repr

/-- Where control goes after a statement: on to the next statement, to an
enclosing `catch` block, to an enclosing `__except` block, or nowhere because
the process has ended. -/
inductive Ctl
  | normal
  | unwindCatch (f : Fault)
  | unwindExcept (f : Fault)
  | ended (s : Status)
  deriving DecidableEq, Repr

/-- The events of a piece of code together with where control goes after it. -/
structure Run where
  trace : List Event
  ctl : Ctl
  deriving DecidableEq, Repr

/-- The empty statement. -/
def skip : Run := ⟨[], Ctl.normal⟩

/-- Sequential composition: the second part runs only when the first one
completes normally. -/
def Run.seq (a b : Run) : Run :=
  match a.ctl with
  | Ctl.normal => ⟨a.trace ++ b.trace, b.ctl⟩
  | _ => a

/-- A statement list. -/
def block : List Run → Run
  | [] => skip
  | s :: rest => s.seq (block rest)

/-- A call of printf with a format string without conversions. -/
def printf (s : String) : Run := ⟨[Event.printf s], Ctl.normal⟩

/-- A call of `fflush(stdout)`. -/
def fflush_stdout : Run := ⟨[Event.fflush_stdout], Ctl.normal⟩

/-- A call of `exit(code)`. -/
def exit (code : Int) : Run := ⟨[], Ctl.ended (Status.exited code)⟩

/-- The statement `return code` of main, which ends the process like
`exit(code)`. -/
def return_main (code : Int) : Run := exit code

/-! ## Handlers and their registration (lines 9-57) -/

/-- The function _sigsegvhandler. -/
def _sigsegvhandler : Run := block [printf "SIGSEGV HANDLED\n", exit 1]

/-- The function _sigaborthandler. -/
def _sigaborthandler : Run := block [printf "SIGABRT HANDLED\n", exit 1]

/-- The function my_vectored_handler; its return statement follows `exit(1)`. -/
def my_vectored_handler : Run := block [printf "Vectored exception handler\n", exit 1, skip]

/-- The function my_unhandled_excetion_filter; its return statement follows
`exit(1)`. -/
def my_unhandled_excetion_filter : Run :=
  block [printf "Unhandled exception handler\n", fflush_stdout, exit 1, skip]

/-- The body a registered handler runs when it is called. -/
def Callback.run : Callback → Run
  | Callback._sigsegvhandler => Crash._sigsegvhandler
  | Callback._sigaborthandler => Crash._sigaborthandler
  | Callback.my_vectored_handler => Crash.my_vectored_handler
  | Callback.my_unhandled_excetion_filter => Crash.my_unhandled_excetion_filter

/-- The registration state the installation calls write: the handlers given to
`std::signal` (by the thread that runs main), the list of vectored handlers in
call order, and the top-level unhandled-exception filter. -/
structure Registry where
  sigsegv : Option Callback := none
  sigabrt : Option Callback := none
  vectored : List Callback := []
  filter : Option Callback := none
  deriving DecidableEq, Repr

/-- The value of the Windows.h constant FALSE. -/
def FALSE : Int := 0

/-- The value of the Windows.h constant TRUE. -/
def TRUE : Int := 1

/-- The function set_signal_handlers. -/
def set_signal_handlers (reg : Registry) : Registry × Run :=
  ({ reg with sigsegv := some Callback._sigsegvhandler,
              sigabrt := some Callback._sigaborthandler },
   ⟨[Event.signal Signal.SIGSEGV Callback._sigsegvhandler,
     Event.signal Signal.SIGABRT Callback._sigaborthandler], Ctl.normal⟩)

/-- The function set_vectored_handler: a nonzero first argument of
AddVectoredExceptionHandler puts the handler first in the call order, zero puts
it last. -/
def set_vectored_handler (val : Int) (reg : Registry) : Registry × Run :=
  ({ reg with vectored :=
      if val ≠ 0 then Callback.my_vectored_handler :: reg.vectored
      else reg.vectored ++ [Callback.my_vectored_handler] },
   ⟨[Event.AddVectoredExceptionHandler val Callback.my_vectored_handler], Ctl.normal⟩)

/-- The function set_unhandled_exception_filter. -/
def set_unhandled_exception_filter (reg : Registry) : Registry × Run :=
  ({ reg with filter := some Callback.my_unhandled_excetion_filter },
   ⟨[Event.SetUnhandledExceptionFilter Callback.my_unhandled_excetion_filter], Ctl.normal⟩)

/-! ## The platform -/

/-- The dynamic extent a fault is raised in. -/
structure Frame where
  onWorker : Bool := false
  inExcept : Bool := false
  inTry : Bool := false
  deriving DecidableEq, Repr

/-- Who gets a raised fault. -/
inductive Claimant
  | vectored
  | cppCatch
  | sehExcept
  | sigsegv
  | sigabrt
  | filter
  | osDefault
  deriving DecidableEq, Repr

/-- The part of the behaviour that is not in the source: whether the build
defines NDEBUG before `<cassert>` is included, and which of the parties present
(a registered handler, an enclosing handler block, the default termination) the
operating system and the runtime give a raised fault to. -/
structure Platform where
  ndebug : Bool
  route : Registry → Frame → Fault → Claimant

/-- A registered handler is called; a missing one leaves the default
termination. -/
def deliver (f : Fault) : Option Callback → Run
  | some h => h.run
  | none => ⟨[], Ctl.ended (Status.killed f)⟩

/-- A fault statement.  The platform names the claimant; a claimant that is not
present (no handler registered in that slot, no enclosing block of that kind, a
`catch (std::exception &)` for a fault that is not a C++ exception) leaves the
default termination. -/
def raise (P : Platform) (reg : Registry) (fr : Frame) (f : Fault) : Run :=
  Run.seq ⟨[Event.fault f], Ctl.normal⟩
    (match P.route reg fr f with
     | Claimant.vectored => deliver f reg.vectored.head?
     | Claimant.cppCatch =>
        if fr.inTry && f == Fault.cppThrow then ⟨[], Ctl.unwindCatch f⟩
        else ⟨[], Ctl.ended (Status.killed f)⟩
     | Claimant.sehExcept =>
        if fr.inExcept then ⟨[], Ctl.unwindExcept f⟩
        else ⟨[], Ctl.ended (Status.killed f)⟩
     | Claimant.sigsegv => deliver f reg.sigsegv
     | Claimant.sigabrt => deliver f reg.sigabrt
     | Claimant.filter => deliver f reg.filter
     | Claimant.osDefault => ⟨[], Ctl.ended (Status.killed f)⟩)

/-- The statement `try body catch (std::exception &) handler`. -/
def try_catch (body handler : Run) : Run :=
  match body.ctl with
  | Ctl.unwindCatch _ => ⟨body.trace ++ handler.trace, handler.ctl⟩
  | _ => body

/-- The statement `__try body __except (EXCEPTION_EXECUTE_HANDLER) handler`. -/
def try_except (body handler : Run) : Run :=
  match body.ctl with
  | Ctl.unwindExcept _ => ⟨body.trace ++ handler.trace, handler.ctl⟩
  | _ => body

/-! ## The classes A and B (lines 145-174) -/

/-- The class whose virtual table is in effect: while the constructor of the
base class A runs, it is that of A. -/
inductive DynamicType
  | A
  | B
  deriving DecidableEq, Repr

/-- The virtual function init: pure in A, an empty body in B. -/
def init (P : Platform) (reg : Registry) (fr : Frame) : DynamicType → Run
  | DynamicType.A => raise P reg fr Fault.pureVirtualCall
  | DynamicType.B => skip

/-- The member function `A::init_internal`, which calls the virtual init. -/
def init_internal (P : Platform) (reg : Registry) (fr : Frame) (t : DynamicType) : Run :=
  init P reg fr t

/-- The constructor of A: it calls init_internal while the object is an A. -/
def A_constructor (P : Platform) (reg : Registry) (fr : Frame) : Run :=
  init_internal P reg fr DynamicType.A

/-- The constructor of B: the base constructor, then the empty body. -/
def B_constructor (P : Platform) (reg : Registry) (fr : Frame) : Run :=
  block [A_constructor P reg fr, skip]

/-! ## The fault routines (lines 212-251) -/

/-- The routine of `case ErrorType::SEGFAULT`. -/
def routine_SEGFAULT (P : Platform) (reg : Registry) (fr : Frame) : Run :=
  block [printf "Segfault inbound\n",
         raise P reg fr Fault.accessViolation,
         printf "Segfault performed\n"]

/-- The statement `assert(false)`: with NDEBUG defined the macro expands to
nothing and the statement completes; otherwise the assertion fails. -/
def assert_false (P : Platform) (reg : Registry) (fr : Frame) : Run :=
  if P.ndebug then skip else raise P reg fr Fault.assertFailure

/-- The routine of `case ErrorType::ABORT`. -/
def routine_ABORT (P : Platform) (reg : Registry) (fr : Frame) : Run :=
  block [printf "Abort inbound\n",
         assert_false P reg fr,
         printf "Abort performed\n"]

/-- The routine of `case ErrorType::CPP_UNHANDLED`. -/
def routine_CPP_UNHANDLED (P : Platform) (reg : Registry) (fr : Frame) : Run :=
  block [printf "C++ unhandled exception inbound\n",
         raise P reg fr Fault.cppThrow,
         printf "C++ unhandled exception performed\n"]

/-- The routine of `case ErrorType::CPP_HANDLED`. -/
def routine_CPP_HANDLED (P : Platform) (reg : Registry) (fr : Frame) : Run :=
  block [try_catch
           (block [printf "C++ exception inbound\n",
                   raise P reg { fr with inTry := true } Fault.cppThrow])
           (printf "C++ exception handler\n"),
         printf "C++ exception performed\n"]

/-- The routine of `case ErrorType::PVC`. -/
def routine_PVC (P : Platform) (reg : Registry) (fr : Frame) : Run :=
  block [printf "Pure virtual call inbound\n",
         B_constructor P reg fr,
         printf "Pure virtual call performed\n"]

/-! ## The function main (lines 177-275) -/

/-- The string USAGE. -/
def USAGE : String :=
  "\n" ++
  "  -t --thread         call crash function in other thread\n" ++
  "     --seh            __try __except SEH block\n" ++
  "\n" ++
  "  -s --segfault       call segfault\n" ++
  "  -a --abort          call abort\n" ++
  "  -p --pure           pure virtual function call\n" ++
  "     --cppu           throw and not handle cpp exception\n" ++
  "     --cpph           throw and handle cpp exception\n" ++
  "  \n" ++
  "     --vectored0      use windows vectored exception handler without first flag\n" ++
  "     --vectored1      use windows vectored exception handler with first flag\n" ++
  "     --suhf           use SetUnhandledExceptionFilter\n" ++
  "     --signal         use signal handler\n" ++
  "\n"

/-- The switch over `args.catch_method` (lines 186-203). -/
def install_switch (catch_method : CatchMethod) (reg : Registry) : Registry × Run :=
  if catch_method = CatchMethod.NONE then (reg, skip)
  else if catch_method = CatchMethod.SIGNAL then set_signal_handlers reg
  else if catch_method = CatchMethod.VECTORED0 then set_vectored_handler FALSE reg
  else if catch_method = CatchMethod.VECTORED1 then set_vectored_handler TRUE reg
  else if catch_method = CatchMethod.SUHF then set_unhandled_exception_filter reg
  else (reg, exit 2)

/-- The lambda that replaces routine when `args.seh` is set (lines 257-264). -/
def seh_wrapper (routine : Frame → Run) (fr : Frame) : Run :=
  try_except
    (block [⟨[Event.seh_enter], Ctl.normal⟩, routine { fr with inExcept := true }])
    (printf "Epic SEH Handler\n")

/-- The statements after the second switch (lines 256-274): the optional
wrapping, the call on a worker thread that is joined or on the calling thread,
and `return 0`. -/
def run_routine (args : Args) (routine : Frame → Run) : Run :=
  let routine := if args.seh then seh_wrapper routine else routine
  block [if args.threading then
           block [⟨[Event.thread_start], Ctl.normal⟩,
                  routine { onWorker := true },
                  ⟨[Event.thread_join], Ctl.normal⟩]
         else routine { onWorker := false },
         return_main 0]

/-- The switch over `args.error` (lines 207-254) with the statements that
follow it. -/
def dispatch (P : Platform) (reg : Registry) (args : Args) : Run :=
  if args.error = ErrorType.NONE then block [printf "Specify crash method!\n", exit 2]
  else if args.error = ErrorType.SEGFAULT then run_routine args (routine_SEGFAULT P reg)
  else if args.error = ErrorType.ABORT then run_routine args (routine_ABORT P reg)
  else if args.error = ErrorType.CPP_UNHANDLED then
    run_routine args (routine_CPP_UNHANDLED P reg)
  else if args.error = ErrorType.CPP_HANDLED then run_routine args (routine_CPP_HANDLED P reg)
  else if args.error = ErrorType.PVC then run_routine args (routine_PVC P reg)
  else exit 2

/-- What a finished run of main shows: its events and how the process ended. -/
structure Outcome where
  trace : List Event
  status : Status
  deriving DecidableEq, Repr

/-- The end of the process: a fault that no handler block took leaves the
default termination. -/
def Run.finish (r : Run) : Outcome :=
  ⟨r.trace,
   match r.ctl with
   | Ctl.ended s => s
   | Ctl.normal => Status.exited 0
   | Ctl.unwindCatch f => Status.killed f
   | Ctl.unwindExcept f => Status.killed f⟩

/-- The function main; `argc` is the number of entries of `argv`. -/
def main (P : Platform) (argv : List String) : Outcome :=
  let argc := argv.length
  if argc = 1 then (block [printf USAGE, exit 1]).finish
  else
    let args := parse_arguments argv
    let installed := install_switch args.catch_method {}
    (installed.2.seq (dispatch P installed.1 args)).finish

/-- The lines written with printf, in order. -/
def output (t : List Event) : List String :=
  t.filterMap fun e => match e with
    | Event.printf s => some s
    | _ => none

/-- The events up to the last `fflush(stdout)`. -/
def flushed : List Event → List Event
  | [] => []
  | e :: t => if Event.fflush_stdout ∈ e :: t then e :: flushed t else []

/-- The lines that reach the reader of stdout.  A process that ends through
exit or a return from main flushes the stream, so every line arrives.  A process
that is killed flushes nothing: when stdout is fully buffered (a file or a
pipe) only the lines before the last `fflush(stdout)` arrive, when it is not (a
console) every line has arrived at its printf call. -/
def delivered (buffered : Bool) (o : Outcome) : List String :=
  match o.status with
  | Status.exited _ => output o.trace
  | Status.killed _ => if buffered then output (flushed o.trace) else output o.trace

/-! ## The Windows platform -/

/-- The documented routing of Windows with the Microsoft C/C++ runtime, which
the program is written for, in a build that does not define NDEBUG.

* An access violation and a C++ throw are structured exceptions.  Vectored
  handlers are called first, before any frame-based handler.  Then the frames
  are searched from the innermost: a `catch` that matches (C++ exceptions only),
  then an `__except` block.  An access violation that no frame takes is turned
  into SIGSEGV by the runtime on the thread that registered the handler (the
  disposition of SIGSEGV is kept per thread, that of SIGABRT per process); then
  comes the unhandled-exception filter.  A C++ exception nobody takes ends in
  `terminate`, which calls `abort`.
* A failed assertion and a pure virtual call end in `abort`, which raises
  SIGABRT. -/
def windows : Platform where
  ndebug := false
  route reg fr f :=
    match f with
    | Fault.accessViolation =>
      if !reg.vectored.isEmpty then Claimant.vectored
      else if fr.inExcept then Claimant.sehExcept
      else if reg.sigsegv.isSome && !fr.onWorker then Claimant.sigsegv
      else if reg.filter.isSome then Claimant.filter
      else Claimant.osDefault
    | Fault.cppThrow =>
      if !reg.vectored.isEmpty then Claimant.vectored
      else if fr.inTry then Claimant.cppCatch
      else if fr.inExcept then Claimant.sehExcept
      else if reg.filter.isSome then Claimant.filter
      else if reg.sigabrt.isSome then Claimant.sigabrt
      else Claimant.osDefault
    | Fault.assertFailure =>
      if reg.sigabrt.isSome then Claimant.sigabrt else Claimant.osDefault
    | Fault.pureVirtualCall =>
      if reg.sigabrt.isSome then Claimant.sigabrt else Claimant.osDefault

/-- The same routing in a build with NDEBUG defined (true) or not (false). -/
def windows_build (ndebug : Bool) : Platform :=
  { windows with ndebug := ndebug }

/-! ## Auxiliary definitions for the statements -/

/-- The mechanism an installation event belongs to; none for every other
event. -/
def Event.mechanism : Event → Option CatchMethod
  | Event.signal _ _ => some CatchMethod.SIGNAL
  | Event.AddVectoredExceptionHandler first _ =>
      if first = 0 then some CatchMethod.VECTORED0 else some CatchMethod.VECTORED1
  | Event.SetUnhandledExceptionFilter _ => some CatchMethod.SUHF
  | _ => none

/-- The installation call main makes for each catch method. -/
def selectedInstallation (cm : CatchMethod) : List Event :=
  if cm = CatchMethod.SIGNAL then (set_signal_handlers {}).2.trace
  else if cm = CatchMethod.VECTORED0 then (set_vectored_handler FALSE {}).2.trace
  else if cm = CatchMethod.VECTORED1 then (set_vectored_handler TRUE {}).2.trace
  else if cm = CatchMethod.SUHF then (set_unhandled_exception_filter {}).2.trace
  else []

/-- The enumerators of ErrorType. -/
def ErrorType.enumerators : List ErrorType :=
  [ErrorType.NONE, ErrorType.SEGFAULT, ErrorType.ABORT, ErrorType.CPP_UNHANDLED,
   ErrorType.CPP_HANDLED, ErrorType.PVC]

/-- The enumerators of CatchMethod. -/
def CatchMethod.enumerators : List CatchMethod :=
  [CatchMethod.NONE, CatchMethod.VECTORED0, CatchMethod.VECTORED1, CatchMethod.SUHF,
   CatchMethod.SIGNAL]

/-- The statements of main after the usage guard, for given parsed arguments. -/
def run_args (P : Platform) (args : Args) : Outcome :=
  let installed := install_switch args.catch_method {}
  (installed.2.seq (dispatch P installed.1 args)).finish

/-- A property of all events and of the final control of a run. -/
def Run.Sat (qe : Event → Prop) (qc : Ctl → Prop) (r : Run) : Prop :=
  (∀ e ∈ r.trace, qe e) ∧ qc r.ctl

/-- Every event is outside the installation calls and the run does not end
with `exit(2)`. -/
def Run.quiet (r : Run) : Prop :=
  r.Sat (fun e => e.mechanism = none) (fun c => c ≠ Ctl.ended (Status.exited 2))

/-! # Theorems -/

/-! ## Argument parsing -/

theorem parse_step_eq (r : Args) (a : String) :
    parse_step r a =
      { threading := r.threading || threadFlag a
        seh := r.seh || sehFlag a
        error := (faultFlag a).getD r.error
        catch_method := (mechanismFlag a).getD r.catch_method } := by
  obtain ⟨t, s, e, c⟩ := r
  by_cases h1 : a = "-t"
  · subst h1; simp [parse_step, compare_arg, faultFlag, mechanismFlag, threadFlag, sehFlag]
  by_cases h2 : a = "--thread"
  · subst h2; simp [parse_step, compare_arg, faultFlag, mechanismFlag, threadFlag, sehFlag]
  by_cases h3 : a = "--seh"
  · subst h3; simp [parse_step, compare_arg, faultFlag, mechanismFlag, threadFlag, sehFlag]
  by_cases h4 : a = "-s"
  · subst h4; simp [parse_step, compare_arg, faultFlag, mechanismFlag, threadFlag, sehFlag]
  by_cases h5 : a = "--segfault"
  · subst h5; simp [parse_step, compare_arg, faultFlag, mechanismFlag, threadFlag, sehFlag]
  by_cases h6 : a = "-a"
  · subst h6; simp [parse_step, compare_arg, faultFlag, mechanismFlag, threadFlag, sehFlag]
  by_cases h7 : a = "--abort"
  · subst h7; simp [parse_step, compare_arg, faultFlag, mechanismFlag, threadFlag, sehFlag]
  by_cases h8 : a = "-p"
  · subst h8; simp [parse_step, compare_arg, faultFlag, mechanismFlag, threadFlag, sehFlag]
  by_cases h9 : a = "--pure"
  · subst h9; simp [parse_step, compare_arg, faultFlag, mechanismFlag, threadFlag, sehFlag]
  by_cases h10 : a = "--cppu"
  · subst h10; simp [parse_step, compare_arg, faultFlag, mechanismFlag, threadFlag, sehFlag]
  by_cases h11 : a = "--cpph"
  · subst h11; simp [parse_step, compare_arg, faultFlag, mechanismFlag, threadFlag, sehFlag]
  by_cases h12 : a = "--vectored0"
  · subst h12; simp [parse_step, compare_arg, faultFlag, mechanismFlag, threadFlag, sehFlag]
  by_cases h13 : a = "--vectored1"
  · subst h13; simp [parse_step, compare_arg, faultFlag, mechanismFlag, threadFlag, sehFlag]
  by_cases h14 : a = "--suhf"
  · subst h14; simp [parse_step, compare_arg, faultFlag, mechanismFlag, threadFlag, sehFlag]
  by_cases h15 : a = "--signal"
  · subst h15; simp [parse_step, compare_arg, faultFlag, mechanismFlag, threadFlag, sehFlag]
  simp [parse_step, compare_arg, faultFlag, mechanismFlag, threadFlag, sehFlag, *]

theorem parse_arguments_snoc (l : List String) (a : String) :
    parse_arguments (l ++ [a]) = parse_step (parse_arguments l) a := by
  simp [parse_arguments, List.foldl_append]

theorem parse_arguments_table (argv : List String) :
    parse_arguments argv = lastWriteWins argv := by
  induction argv using List.reverseRecOn with
  | nil => rfl
  | append_singleton l a ih =>
    rw [parse_arguments_snoc, ih, parse_step_eq]
    simp only [lastWriteWins, List.any_append, List.filterMap_append, List.any_cons, List.any_nil,
      Bool.or_false, List.filterMap_cons, List.filterMap_nil]
    congr 1
    · cases h : faultFlag a <;> simp
    · cases h : mechanismFlag a <;> simp

theorem faultFlag_enumerator (a : String) (e : ErrorType) (h : faultFlag a = some e) :
    e ∈ ErrorType.enumerators := by
  unfold faultFlag at h
  split_ifs at h <;> cases h <;> decide

theorem mechanismFlag_enumerator (a : String) (c : CatchMethod) (h : mechanismFlag a = some c) :
    c ∈ CatchMethod.enumerators := by
  unfold mechanismFlag at h
  split_ifs at h <;> cases h <;> decide

theorem parse_arguments_enumerators (argv : List String) :
    (parse_arguments argv).error ∈ ErrorType.enumerators ∧
    (parse_arguments argv).catch_method ∈ CatchMethod.enumerators := by
  induction argv using List.reverseRecOn with
  | nil => exact ⟨by decide, by decide⟩
  | append_singleton l a ih =>
    rw [parse_arguments_snoc, parse_step_eq]
    constructor
    · cases h : faultFlag a with
      | none => simpa using ih.1
      | some e => simpa using faultFlag_enumerator a e h
    · cases h : mechanismFlag a with
      | none => simpa using ih.2
      | some c => simpa using mechanismFlag_enumerator a c h

/-! ## Sequencing -/

theorem seq_normal (a b : Run) (h : a.ctl = Ctl.normal) :
    a.seq b = ⟨a.trace ++ b.trace, b.ctl⟩ := by
  simp [Run.seq, h]

theorem seq_stop (a b : Run) (h : a.ctl ≠ Ctl.normal) : a.seq b = a := by
  unfold Run.seq
  split
  · contradiction
  · rfl

theorem sat_seq {qe : Event → Prop} {qc : Ctl → Prop} {a b : Run}
    (ha : a.Sat qe qc) (hb : b.Sat qe qc) : (a.seq b).Sat qe qc := by
  by_cases h : a.ctl = Ctl.normal
  · rw [seq_normal a b h]
    refine ⟨?_, hb.2⟩
    intro e he
    rcases List.mem_append.1 he with h1 | h1
    · exact ha.1 e h1
    · exact hb.1 e h1
  · rw [seq_stop a b h]; exact ha

theorem sat_block {qe : Event → Prop} {qc : Ctl → Prop} (hn : qc Ctl.normal) :
    ∀ l : List Run, (∀ r ∈ l, r.Sat qe qc) → (block l).Sat qe qc
  | [], _ => ⟨by simp [block, skip], hn⟩
  | s :: rest, h =>
    sat_seq (h s (List.mem_cons_self _ _))
      (sat_block hn rest fun r hr => h r (List.mem_cons_of_mem _ hr))

theorem sat_try_catch {qe : Event → Prop} {qc : Ctl → Prop} {body handler : Run}
    (hb : body.Sat qe qc) (hh : handler.Sat qe qc) : (try_catch body handler).Sat qe qc := by
  unfold try_catch
  split
  · refine ⟨?_, hh.2⟩
    intro e he
    rcases List.mem_append.1 he with h1 | h1
    · exact hb.1 e h1
    · exact hh.1 e h1
  · exact hb

theorem sat_try_except {qe : Event → Prop} {qc : Ctl → Prop} {body handler : Run}
    (hb : body.Sat qe qc) (hh : handler.Sat qe qc) : (try_except body handler).Sat qe qc := by
  unfold try_except
  split
  · refine ⟨?_, hh.2⟩
    intro e he
    rcases List.mem_append.1 he with h1 | h1
    · exact hb.1 e h1
    · exact hh.1 e h1
  · exact hb

theorem sat_single {qe : Event → Prop} {qc : Ctl → Prop} (e : Event) (he : qe e)
    (hn : qc Ctl.normal) : Run.Sat qe qc ⟨[e], Ctl.normal⟩ :=
  ⟨by simpa using he, hn⟩

theorem sat_printf {qe : Event → Prop} {qc : Ctl → Prop} (s : String) (he : qe (Event.printf s))
    (hn : qc Ctl.normal) : (printf s).Sat qe qc :=
  sat_single _ he hn

theorem sat_exit {qe : Event → Prop} {qc : Ctl → Prop} (code : Int)
    (hc : qc (Ctl.ended (Status.exited code))) : (exit code).Sat qe qc :=
  ⟨by simp [exit], hc⟩

/-! ## Fault statements -/

theorem callback_run_ctl (h : Callback) : h.run.ctl = Ctl.ended (Status.exited 1) := by
  cases h <;> rfl

theorem deliver_ctl (f : Fault) (o : Option Callback) : (deliver f o).ctl ≠ Ctl.normal := by
  cases o with
  | none => simp [deliver]
  | some h => simp [deliver, callback_run_ctl]

theorem raise_ctl (P : Platform) (reg : Registry) (fr : Frame) (f : Fault) :
    (raise P reg fr f).ctl ≠ Ctl.normal := by
  unfold raise
  rw [seq_normal _ _ rfl]
  simp only
  split
  · exact deliver_ctl _ _
  · split <;> simp
  · split <;> simp
  · exact deliver_ctl _ _
  · exact deliver_ctl _ _
  · exact deliver_ctl _ _
  · simp

theorem sat_deliver {qe : Event → Prop} {qc : Ctl → Prop} (f : Fault) (o : Option Callback)
    (hh : ∀ h : Callback, h.run.Sat qe qc) (hk : qc (Ctl.ended (Status.killed f))) :
    (deliver f o).Sat qe qc := by
  cases o with
  | none => exact ⟨by simp [deliver], hk⟩
  | some h => exact hh h

theorem sat_raise {qe : Event → Prop} {qc : Ctl → Prop} (P : Platform) (reg : Registry)
    (fr : Frame) (f : Fault) (hf : qe (Event.fault f)) (hh : ∀ h : Callback, h.run.Sat qe qc)
    (hn : qc Ctl.normal) (h1 : qc (Ctl.unwindCatch f)) (h2 : qc (Ctl.unwindExcept f))
    (hk : qc (Ctl.ended (Status.killed f))) : (raise P reg fr f).Sat qe qc := by
  unfold raise
  refine sat_seq (sat_single _ hf hn) ?_
  have hkill : Run.Sat qe qc ⟨[], Ctl.ended (Status.killed f)⟩ := ⟨by simp, hk⟩
  split
  · exact sat_deliver f _ hh hk
  · split
    · exact ⟨by simp, h1⟩
    · exact hkill
  · split
    · exact ⟨by simp, h2⟩
    · exact hkill
  · exact sat_deliver f _ hh hk
  · exact sat_deliver f _ hh hk
  · exact sat_deliver f _ hh hk
  · exact hkill

/-! ## The routines -/

theorem block_fault (a b : String) (R : Run) (h : R.ctl ≠ Ctl.normal) :
    block [printf a, R, printf b] = ⟨Event.printf a :: R.trace, R.ctl⟩ := by
  simp only [block]
  rw [seq_stop R _ h, seq_normal _ _ rfl]
  rfl

theorem routine_SEGFAULT_eq (P : Platform) (reg : Registry) (fr : Frame) :
    routine_SEGFAULT P reg fr =
      ⟨Event.printf "Segfault inbound\n" :: (raise P reg fr Fault.accessViolation).trace,
       (raise P reg fr Fault.accessViolation).ctl⟩ :=
  block_fault _ _ _ (raise_ctl P reg fr _)

theorem routine_ABORT_eq (P : Platform) (reg : Registry) (fr : Frame)
    (h : P.ndebug = false) :
    routine_ABORT P reg fr =
      ⟨Event.printf "Abort inbound\n" :: (raise P reg fr Fault.assertFailure).trace,
       (raise P reg fr Fault.assertFailure).ctl⟩ := by
  unfold routine_ABORT assert_false
  rw [h]
  exact block_fault _ _ _ (raise_ctl P reg fr _)

theorem routine_CPP_UNHANDLED_eq (P : Platform) (reg : Registry) (fr : Frame) :
    routine_CPP_UNHANDLED P reg fr =
      ⟨Event.printf "C++ unhandled exception inbound\n" ::
         (raise P reg fr Fault.cppThrow).trace,
       (raise P reg fr Fault.cppThrow).ctl⟩ :=
  block_fault _ _ _ (raise_ctl P reg fr _)

theorem B_constructor_eq (P : Platform) (reg : Registry) (fr : Frame) :
    B_constructor P reg fr = raise P reg fr Fault.pureVirtualCall := by
  simp only [B_constructor, A_constructor, init_internal, init, block]
  exact seq_stop _ _ (raise_ctl P reg fr _)

theorem routine_PVC_eq (P : Platform) (reg : Registry) (fr : Frame) :
    routine_PVC P reg fr =
      ⟨Event.printf "Pure virtual call inbound\n" ::
         (raise P reg fr Fault.pureVirtualCall).trace,
       (raise P reg fr Fault.pureVirtualCall).ctl⟩ := by
  unfold routine_PVC
  rw [B_constructor_eq]
  exact block_fault _ _ _ (raise_ctl P reg fr _)

/-! ## Membership in the trace of a composed run -/

theorem mem_seq_left {e : Event} {a : Run} (b : Run) (h : e ∈ a.trace) :
    e ∈ (a.seq b).trace := by
  by_cases hc : a.ctl = Ctl.normal
  · rw [seq_normal a b hc]; exact List.mem_append_left _ h
  · rw [seq_stop a b hc]; exact h

theorem mem_seq_right {e : Event} {a b : Run} (hc : a.ctl = Ctl.normal) (h : e ∈ b.trace) :
    e ∈ (a.seq b).trace := by
  rw [seq_normal a b hc]; exact List.mem_append_right _ h

theorem mem_try_except {e : Event} {body : Run} (handler : Run) (h : e ∈ body.trace) :
    e ∈ (try_except body handler).trace := by
  unfold try_except
  split
  · exact List.mem_append_left _ h
  · exact h

theorem mem_seh_wrapper {e : Event} {routine : Frame → Run} (h : ∀ fr, e ∈ (routine fr).trace)
    (fr : Frame) : e ∈ (seh_wrapper routine fr).trace := by
  unfold seh_wrapper
  apply mem_try_except
  simp only [block]
  exact mem_seq_right rfl (mem_seq_left _ (h _))

theorem mem_run_routine {e : Event} (args : Args) {routine : Frame → Run}
    (h : ∀ fr, e ∈ (routine fr).trace) : e ∈ (run_routine args routine).trace := by
  have h2 : ∀ fr, e ∈ ((if args.seh then seh_wrapper routine else routine) fr).trace := by
    intro fr
    split
    · exact mem_seh_wrapper h fr
    · exact h fr
  simp only [run_routine, block]
  apply mem_seq_left
  split
  · exact mem_seq_right rfl (mem_seq_left _ (h2 _))
  · exact h2 _

/-! ## Properties kept by the wrapper and the dispatch -/

theorem sat_seh_wrapper {qe : Event → Prop} {qc : Ctl → Prop} {routine : Frame → Run}
    (hn : qc Ctl.normal) (h1 : qe Event.seh_enter) (h2 : qe (Event.printf "Epic SEH Handler\n"))
    (h : ∀ fr, (routine fr).Sat qe qc) (fr : Frame) : (seh_wrapper routine fr).Sat qe qc := by
  unfold seh_wrapper
  refine sat_try_except (sat_block hn _ ?_) (sat_printf _ h2 hn)
  intro r hr
  simp only [List.mem_cons, List.mem_singleton, List.not_mem_nil, or_false] at hr
  rcases hr with rfl | rfl
  · exact sat_single _ h1 hn
  · exact h _

theorem sat_run_routine {qe : Event → Prop} {qc : Ctl → Prop} (args : Args)
    {routine : Frame → Run} (hn : qc Ctl.normal) (h0 : qc (Ctl.ended (Status.exited 0)))
    (h1 : qe Event.seh_enter) (h2 : qe (Event.printf "Epic SEH Handler\n"))
    (h3 : qe Event.thread_start) (h4 : qe Event.thread_join)
    (h : ∀ fr, (routine fr).Sat qe qc) : (run_routine args routine).Sat qe qc := by
  have hw : ∀ fr, ((if args.seh then seh_wrapper routine else routine) fr).Sat qe qc := by
    intro fr
    split
    · exact sat_seh_wrapper hn h1 h2 h fr
    · exact h fr
  simp only [run_routine]
  refine sat_block hn _ ?_
  intro r hr
  simp only [List.mem_cons, List.mem_singleton, List.not_mem_nil, or_false] at hr
  rcases hr with rfl | rfl
  · split
    · refine sat_block hn _ ?_
      intro r hr
      simp only [List.mem_cons, List.mem_singleton, List.not_mem_nil, or_false] at hr
      rcases hr with rfl | rfl | rfl
      · exact sat_single _ h3 hn
      · exact hw _
      · exact sat_single _ h4 hn
    · exact hw _
  · exact sat_exit 0 h0

theorem quiet_callback (h : Callback) : h.run.quiet := by
  cases h <;> exact ⟨by decide, by decide⟩

theorem quiet_raise (P : Platform) (reg : Registry) (fr : Frame) (f : Fault) :
    (raise P reg fr f).quiet :=
  sat_raise P reg fr f rfl quiet_callback (by simp) (by simp) (by simp) (by simp)

theorem quiet_printf (s : String) : (printf s).quiet :=
  sat_printf s rfl (by simp)

theorem quiet_block (l : List Run) (h : ∀ r ∈ l, r.quiet) : (block l).quiet :=
  sat_block (by simp) l h

theorem quiet_routine_SEGFAULT (P : Platform) (reg : Registry) (fr : Frame) :
    (routine_SEGFAULT P reg fr).quiet := by
  refine quiet_block _ ?_
  intro r hr
  simp only [List.mem_cons, List.mem_singleton, List.not_mem_nil, or_false] at hr
  rcases hr with rfl | rfl | rfl
  · exact quiet_printf _
  · exact quiet_raise _ _ _ _
  · exact quiet_printf _

theorem quiet_routine_ABORT (P : Platform) (reg : Registry) (fr : Frame) :
    (routine_ABORT P reg fr).quiet := by
  refine quiet_block _ ?_
  intro r hr
  simp only [List.mem_cons, List.mem_singleton, List.not_mem_nil, or_false] at hr
  rcases hr with rfl | rfl | rfl
  · exact quiet_printf _
  · unfold assert_false
    split
    · exact ⟨by simp [skip], by simp [skip]⟩
    · exact quiet_raise _ _ _ _
  · exact quiet_printf _

theorem quiet_routine_CPP_UNHANDLED (P : Platform) (reg : Registry) (fr : Frame) :
    (routine_CPP_UNHANDLED P reg fr).quiet := by
  refine quiet_block _ ?_
  intro r hr
  simp only [List.mem_cons, List.mem_singleton, List.not_mem_nil, or_false] at hr
  rcases hr with rfl | rfl | rfl
  · exact quiet_printf _
  · exact quiet_raise _ _ _ _
  · exact quiet_printf _

theorem quiet_routine_CPP_HANDLED (P : Platform) (reg : Registry) (fr : Frame) :
    (routine_CPP_HANDLED P reg fr).quiet := by
  refine quiet_block _ ?_
  intro r hr
  simp only [List.mem_cons, List.mem_singleton, List.not_mem_nil, or_false] at hr
  rcases hr with rfl | rfl
  · refine sat_try_catch (quiet_block _ ?_) (quiet_printf _)
    intro r hr
    simp only [List.mem_cons, List.mem_singleton, List.not_mem_nil, or_false] at hr
    rcases hr with rfl | rfl
    · exact quiet_printf _
    · exact quiet_raise _ _ _ _
  · exact quiet_printf _

theorem quiet_routine_PVC (P : Platform) (reg : Registry) (fr : Frame) :
    (routine_PVC P reg fr).quiet := by
  rw [routine_PVC_eq]
  exact ⟨by
    intro e he
    rcases List.mem_cons.1 he with rfl | h1
    · rfl
    · exact (quiet_raise P reg fr _).1 e h1, (quiet_raise P reg fr _).2⟩

theorem quiet_run_routine (args : Args) {routine : Frame → Run} (h : ∀ fr, (routine fr).quiet) :
    (run_routine args routine).quiet :=
  sat_run_routine args (by simp) (by simp) rfl rfl rfl rfl h

theorem dispatch_quiet (P : Platform) (reg : Registry) (args : Args)
    (h : args.error ≠ ErrorType.NONE) (hk : args.error ∈ ErrorType.enumerators) :
    (dispatch P reg args).quiet := by
  unfold dispatch
  rw [if_neg h]
  split_ifs with h1 h2 h3 h4 h5
  · exact quiet_run_routine args (quiet_routine_SEGFAULT P reg)
  · exact quiet_run_routine args (quiet_routine_ABORT P reg)
  · exact quiet_run_routine args (quiet_routine_CPP_UNHANDLED P reg)
  · exact quiet_run_routine args (quiet_routine_CPP_HANDLED P reg)
  · exact quiet_run_routine args (quiet_routine_PVC P reg)
  · simp [ErrorType.enumerators] at hk
    tauto

theorem dispatch_NONE (P : Platform) (reg : Registry) (args : Args)
    (h : args.error = ErrorType.NONE) :
    dispatch P reg args =
      ⟨[Event.printf "Specify crash method!\n"], Ctl.ended (Status.exited 2)⟩ := by
  unfold dispatch
  rw [if_pos h]
  rfl

theorem dispatch_no_installation (P : Platform) (reg : Registry) (args : Args)
    (hk : args.error ∈ ErrorType.enumerators) :
    ∀ e ∈ (dispatch P reg args).trace, e.mechanism = none := by
  by_cases h : args.error = ErrorType.NONE
  · rw [dispatch_NONE P reg args h]
    intro e he
    simp only [List.mem_singleton] at he
    subst he
    rfl
  · exact (dispatch_quiet P reg args h hk).1

/-! ## The function main -/

theorem main_eq (P : Platform) (argv : List String) :
    main P argv = if argv.length = 1 then ⟨[Event.printf USAGE], Status.exited 1⟩
      else run_args P (parse_arguments argv) := by
  by_cases h : argv.length = 1
  · simp only [main, h, if_true]; rfl
  · simp only [main, run_args, h, if_false]

theorem install_switch_enumerator (cm : CatchMethod) (h : cm ∈ CatchMethod.enumerators) :
    (install_switch cm {}).2 = ⟨selectedInstallation cm, Ctl.normal⟩ := by
  simp only [CatchMethod.enumerators, List.mem_cons, List.mem_singleton, List.not_mem_nil,
    or_false] at h
  rcases h with rfl | rfl | rfl | rfl | rfl <;> rfl

theorem run_args_eq (P : Platform) (args : Args)
    (h : args.catch_method ∈ CatchMethod.enumerators) :
    run_args P args =
      (Run.mk (selectedInstallation args.catch_method ++
          (dispatch P (install_switch args.catch_method {}).1 args).trace)
        (dispatch P (install_switch args.catch_method {}).1 args).ctl).finish := by
  simp only [run_args]
  rw [install_switch_enumerator _ h, seq_normal _ _ rfl]

theorem mem_output (s : String) (t : List Event) : s ∈ output t ↔ Event.printf s ∈ t := by
  simp only [output, List.mem_filterMap]
  constructor
  · rintro ⟨e, he, h⟩
    cases e <;> simp at h
    subst h
    exact he
  · intro h
    exact ⟨_, h, rfl⟩

theorem selectedInstallation_mechanism (cm : CatchMethod) :
    ∀ e ∈ selectedInstallation cm, e.mechanism = some cm := by
  unfold selectedInstallation
  split_ifs with h1 h2 h3 h4 <;> subst_vars <;> first | decide | simp

theorem fault_mem_raise (P : Platform) (reg : Registry) (fr : Frame) (f : Fault) :
    Event.fault f ∈ (raise P reg fr f).trace := by
  unfold raise
  rw [seq_normal _ _ rfl]
  simp

theorem finish_status_ne (r : Run) (h : r.ctl ≠ Ctl.ended (Status.exited 2)) :
    r.finish.status ≠ Status.exited 2 := by
  obtain ⟨t, c⟩ := r
  cases c with
  | normal => simp [Run.finish]
  | unwindCatch f => simp [Run.finish]
  | unwindExcept f => simp [Run.finish]
  | ended s =>
    intro hs
    apply h
    simp only [Run.finish] at hs
    simp [hs]

theorem run_routine_fault (P : Platform) (reg : Registry) (args : Args) (inbound performed : String)
    (f : Fault) (routine : Frame → Run)
    (hr : ∀ fr, routine fr =
      ⟨Event.printf inbound :: (raise P reg fr f).trace, (raise P reg fr f).ctl⟩)
    (h1 : inbound ≠ performed) (h2 : "Epic SEH Handler\n" ≠ performed)
    (h3 : ∀ h : Callback, ∀ e ∈ h.run.trace, e ≠ Event.printf performed) :
    Event.printf inbound ∈ (run_routine args routine).trace ∧
    Event.printf performed ∉ (run_routine args routine).trace := by
  constructor
  · apply mem_run_routine
    intro fr
    rw [hr]
    exact List.mem_cons_self _ _
  · have hs : (run_routine args routine).Sat (fun e => e ≠ Event.printf performed)
        (fun _ => True) := by
      refine sat_run_routine args trivial trivial (by simp) (by simpa using h2) (by simp)
        (by simp) ?_
      intro fr
      rw [hr]
      have hR : (raise P reg fr f).Sat (fun e => e ≠ Event.printf performed) (fun _ => True) :=
        sat_raise P reg fr f (by simp) (fun h => ⟨h3 h, trivial⟩) trivial trivial trivial trivial
      refine ⟨?_, trivial⟩
      intro e he
      rcases List.mem_cons.1 he with rfl | h4
      · simpa using h1
      · exact hR.1 e h4
    intro hmem
    exact hs.1 _ hmem rfl

theorem dispatch_SEGFAULT (P : Platform) (reg : Registry) (args : Args)
    (h : args.error = ErrorType.SEGFAULT) :
    dispatch P reg args = run_routine args (routine_SEGFAULT P reg) := by
  unfold dispatch
  rw [h, if_neg (by decide), if_pos rfl]

theorem dispatch_ABORT (P : Platform) (reg : Registry) (args : Args)
    (h : args.error = ErrorType.ABORT) :
    dispatch P reg args = run_routine args (routine_ABORT P reg) := by
  unfold dispatch
  rw [h, if_neg (by decide), if_neg (by decide), if_pos rfl]

theorem dispatch_CPP_UNHANDLED (P : Platform) (reg : Registry) (args : Args)
    (h : args.error = ErrorType.CPP_UNHANDLED) :
    dispatch P reg args = run_routine args (routine_CPP_UNHANDLED P reg) := by
  unfold dispatch
  rw [h, if_neg (by decide), if_neg (by decide), if_neg (by decide), if_pos rfl]

theorem dispatch_PVC (P : Platform) (reg : Registry) (args : Args)
    (h : args.error = ErrorType.PVC) :
    dispatch P reg args = run_routine args (routine_PVC P reg) := by
  unfold dispatch
  rw [h, if_neg (by decide), if_neg (by decide), if_neg (by decide), if_neg (by decide),
    if_neg (by decide), if_pos rfl]

theorem main_trace (P : Platform) (argv : List String) (h : argv.length ≠ 1) :
    (main P argv).trace =
      selectedInstallation (parse_arguments argv).catch_method ++
        (dispatch P (install_switch (parse_arguments argv).catch_method {}).1
          (parse_arguments argv)).trace := by
  rw [main_eq, if_neg h, run_args_eq P _ (parse_arguments_enumerators argv).2]
  rfl

theorem mem_main_output (P : Platform) (argv : List String) (h : argv.length ≠ 1) (s : String) :
    s ∈ output (main P argv).trace ↔
      Event.printf s ∈ (dispatch P (install_switch (parse_arguments argv).catch_method {}).1
          (parse_arguments argv)).trace := by
  rw [mem_output, main_trace P argv h, List.mem_append]
  constructor
  · rintro (h1 | h1)
    · have := selectedInstallation_mechanism _ _ h1
      simp [Event.mechanism] at this
    · exact h1
  · exact Or.inr

theorem parse_single (a : String) :
    ((parse_arguments [a]).seh = true → (parse_arguments [a]).error = ErrorType.NONE) ∧
    ((parse_arguments [a]).catch_method ≠ CatchMethod.NONE →
      (parse_arguments [a]).error = ErrorType.NONE) := by
  have h : parse_arguments [a] = parse_step {} a := rfl
  rw [h, parse_step_eq]
  constructor
  · intro hs
    have ha : a = "--seh" := by simpa [sehFlag] using hs
    subst ha
    decide
  · intro hc
    have ha : a = "--vectored0" ∨ a = "--vectored1" ∨ a = "--suhf" ∨ a = "--signal" := by
      by_contra hn
      apply hc
      simp only [not_or] at hn
      simp [mechanismFlag, hn.1, hn.2.1, hn.2.2.1, hn.2.2.2]
    rcases ha with rfl | rfl | rfl | rfl <;> decide

theorem length_ne_one_of_seh (argv : List String) (hs : (parse_arguments argv).seh = true)
    (he : (parse_arguments argv).error ≠ ErrorType.NONE) : argv.length ≠ 1 := by
  intro h
  obtain ⟨a, rfl⟩ := List.length_eq_one.1 h
  exact he ((parse_single a).1 hs)

theorem length_ne_one_of_catch (argv : List String)
    (hc : (parse_arguments argv).catch_method ≠ CatchMethod.NONE)
    (he : (parse_arguments argv).error ≠ ErrorType.NONE) : argv.length ≠ 1 := by
  intro h
  obtain ⟨a, rfl⟩ := List.length_eq_one.1 h
  exact he ((parse_single a).2 hc)

/-- C1: for every argument vector parse_arguments is the flag table read with
last-write-wins (error: the class of the last fault flag, else NONE;
catch_method: the mechanism of the last mechanism flag, else NONE; threading:
some entry is -t or --thread; seh: some entry is --seh), and an entry that is
no flag leaves all four fields as they are. -/
theorem parse_arguments_last_write_wins (argv : List String) :
    parse_arguments argv = lastWriteWins argv ∧
    ∀ (result : Args) (val : String), faultFlag val = none → mechanismFlag val = none →
      threadFlag val = false → sehFlag val = false → parse_step result val = result := by
  refine ⟨parse_arguments_table argv, ?_⟩
  intro result val h1 h2 h3 h4
  rw [parse_step_eq, h1, h2, h3, h4]
  simp

theorem parse_arguments_last_write_wins_witness :
    parse_arguments ["crash.exe", "-a", "--suhf", "-t", "--cpph", "--signal"] =
      { threading := true, seh := false, error := ErrorType.CPP_HANDLED,
        catch_method := CatchMethod.SIGNAL } ∧
    parse_step { error := ErrorType.ABORT } "crash.exe" = { error := ErrorType.ABORT } :=
  ⟨(parse_arguments_last_write_wins _).1.trans (by decide),
   (parse_arguments_last_write_wins []).2 _ _ (by decide) (by decide) (by decide) (by decide)⟩

/-- C2, as amended: in every run that gets past the usage guard (argc is not 1)
and resolves the fault class NONE, on every platform and whatever the catch
method, seh and threading flags are, main ends with exit status 2, the only
line printed is the diagnostic, and no fault statement is reached. -/
theorem no_fault_class_exit_status (P : Platform) (argv : List String)
    (hargc : argv.length ≠ 1) (h : (parse_arguments argv).error = ErrorType.NONE) :
    (main P argv).status = Status.exited 2 ∧
    output (main P argv).trace = ["Specify crash method!\n"] ∧
    ∀ f, Event.fault f ∉ (main P argv).trace := by
  have hc := (parse_arguments_enumerators argv).2
  rw [main_eq, if_neg hargc, run_args_eq P _ hc, dispatch_NONE P _ _ h]
  simp only [CatchMethod.enumerators, List.mem_cons, List.mem_singleton, List.not_mem_nil,
    or_false] at hc
  rcases hc with hc | hc | hc | hc | hc <;> rw [hc] <;>
    exact ⟨by decide, by decide, fun f => by cases f <;> decide⟩

theorem no_fault_class_exit_status_witness :
    (main windows ["crash.exe", "--seh", "--signal", "-t"]).status = Status.exited 2 ∧
    output (main windows ["crash.exe", "--seh", "--signal", "-t"]).trace =
      ["Specify crash method!\n"] ∧
    ∀ f, Event.fault f ∉ (main windows ["crash.exe", "--seh", "--signal", "-t"]).trace :=
  no_fault_class_exit_status windows ["crash.exe", "--seh", "--signal", "-t"]
    (by decide) (by decide)

/-- C2, as stated, fails: the run with only the program name gives no fault flag
and resolves no fault class other than NONE, yet main prints the usage text and
ends with exit status 1, not 2. -/
theorem no_fault_flag_counterexample :
    (∀ a ∈ ["crash.exe"], faultFlag a = none) ∧
    (parse_arguments ["crash.exe"]).error = ErrorType.NONE ∧
    main windows ["crash.exe"] = ⟨[Event.printf USAGE], Status.exited 1⟩ ∧
    (main windows ["crash.exe"]).status ≠ Status.exited 2 :=
  ⟨by decide, by decide, rfl, by decide⟩

/-- C3: in every run with argc = 1, on every platform, main prints the usage
text and exits with status 1; that printf is the only event, so no interceptor
is installed, no worker is spawned and no fault routine runs. -/
theorem usage_on_no_arguments (P : Platform) (argv : List String) (h : argv.length = 1) :
    main P argv = ⟨[Event.printf USAGE], Status.exited 1⟩ := by
  rw [main_eq, if_pos h]

theorem usage_on_no_arguments_witness :
    main windows ["--signal"] = ⟨[Event.printf USAGE], Status.exited 1⟩ :=
  usage_on_no_arguments windows ["--signal"] (by decide)

/-- C4: for every argument vector and platform the trace of main splits into an
installation part followed by the rest.  The installation part holds only
events of the mechanism selected by catch_method: nothing for NONE (and nothing
when argc = 1), the two std::signal calls of set_signal_handlers for SIGNAL,
the AddVectoredExceptionHandler call with FALSE for VECTORED0 and with TRUE for
VECTORED1, the SetUnhandledExceptionFilter call for SUHF.  The rest, which holds
every event of the fault routine, the guard and the worker, has no installation
event. -/
theorem installation_precedes_dispatch (P : Platform) (argv : List String) :
    ∃ pre post, (main P argv).trace = pre ++ post ∧
      (∀ e ∈ pre, e.mechanism = some (parse_arguments argv).catch_method) ∧
      (∀ e ∈ post, e.mechanism = none) ∧
      (argv.length = 1 → pre = []) ∧
      (argv.length ≠ 1 →
        ((parse_arguments argv).catch_method = CatchMethod.NONE → pre = []) ∧
        ((parse_arguments argv).catch_method = CatchMethod.SIGNAL →
          pre = [Event.signal Signal.SIGSEGV Callback._sigsegvhandler,
                 Event.signal Signal.SIGABRT Callback._sigaborthandler]) ∧
        ((parse_arguments argv).catch_method = CatchMethod.VECTORED0 →
          pre = [Event.AddVectoredExceptionHandler FALSE Callback.my_vectored_handler]) ∧
        ((parse_arguments argv).catch_method = CatchMethod.VECTORED1 →
          pre = [Event.AddVectoredExceptionHandler TRUE Callback.my_vectored_handler]) ∧
        ((parse_arguments argv).catch_method = CatchMethod.SUHF →
          pre = [Event.SetUnhandledExceptionFilter Callback.my_unhandled_excetion_filter])) := by
  by_cases h : argv.length = 1
  · refine ⟨[], [Event.printf USAGE], ?_, by simp, ?_, fun _ => rfl, fun h2 => absurd h h2⟩
    · rw [main_eq, if_pos h]; rfl
    · intro e he
      simp only [List.mem_singleton] at he
      subst he
      rfl
  · refine ⟨selectedInstallation (parse_arguments argv).catch_method, _, main_trace P argv h,
      selectedInstallation_mechanism _,
      dispatch_no_installation P _ _ (parse_arguments_enumerators argv).1,
      fun h2 => absurd h2 h, fun _ => ⟨?_, ?_, ?_, ?_, ?_⟩⟩ <;>
    · intro hc
      rw [hc]
      rfl

theorem installation_precedes_dispatch_witness :
    ∃ post, (main windows ["crash.exe", "-s", "--seh", "-t", "--vectored1"]).trace =
        [Event.AddVectoredExceptionHandler TRUE Callback.my_vectored_handler] ++ post ∧
      ∀ e ∈ post, e.mechanism = none := by
  obtain ⟨pre, post, h1, _, h3, _, h5⟩ :=
    installation_precedes_dispatch windows ["crash.exe", "-s", "--seh", "-t", "--vectored1"]
  have hpre := (h5 (by decide)).2.2.2.1 (by decide)
  subst hpre
  exact ⟨post, h1, h3⟩

/-- C5, as amended: on Windows, in every run that resolves its arguments (argc is
not 1) to the fault class CPP_HANDLED, for every seh and threading choice: when
catch_method is NONE, SUHF or SIGNAL the lines printed are the inbound line, the
handler line and the performed line and main ends with exit status 0; when
catch_method is VECTORED0 or VECTORED1 the vectored handler is called for the
throw first, so the lines are the inbound line and the vectored handler's line
and the process exits with status 1. -/
theorem handled_exception_run (argv : List String) (hargc : argv.length ≠ 1)
    (herr : (parse_arguments argv).error = ErrorType.CPP_HANDLED) :
    ((parse_arguments argv).catch_method ∈
        [CatchMethod.NONE, CatchMethod.SUHF, CatchMethod.SIGNAL] →
      output (main windows argv).trace =
        ["C++ exception inbound\n", "C++ exception handler\n", "C++ exception performed\n"] ∧
      (main windows argv).status = Status.exited 0) ∧
    ((parse_arguments argv).catch_method ∈ [CatchMethod.VECTORED0, CatchMethod.VECTORED1] →
      output (main windows argv).trace =
        ["C++ exception inbound\n", "Vectored exception handler\n"] ∧
      (main windows argv).status = Status.exited 1) := by
  rw [main_eq, if_neg hargc]
  generalize parse_arguments argv = args at herr
  obtain ⟨t, s, e, c⟩ := args
  simp only at herr
  subst herr
  constructor
  · intro hc
    simp only [List.mem_cons, List.mem_singleton, List.not_mem_nil, or_false] at hc
    rcases hc with rfl | rfl | rfl <;> cases t <;> cases s <;> decide
  · intro hc
    simp only [List.mem_cons, List.mem_singleton, List.not_mem_nil, or_false] at hc
    rcases hc with rfl | rfl <;> cases t <;> cases s <;> decide

theorem handled_exception_run_witness :
    output (main windows ["crash.exe", "--cpph", "--seh", "-t", "--suhf"]).trace =
      ["C++ exception inbound\n", "C++ exception handler\n", "C++ exception performed\n"] ∧
    (main windows ["crash.exe", "--cpph", "--seh", "-t", "--suhf"]).status = Status.exited 0 :=
  (handled_exception_run ["crash.exe", "--cpph", "--seh", "-t", "--suhf"]
    (by decide) (by decide)).1 (by decide)

/-- C5, as stated, fails: with the arguments `--cpph --vectored0` the resolved
fault class is CPP_HANDLED, but the vectored handler gets the throw before the
catch block does; it prints its line and calls `exit(1)`, so neither the
handler line nor the performed line is printed and the exit status is 1. -/
theorem handled_exception_vectored_counterexample :
    (parse_arguments ["crash.exe", "--cpph", "--vectored0"]).error = ErrorType.CPP_HANDLED ∧
    main windows ["crash.exe", "--cpph", "--vectored0"] =
      ⟨[Event.AddVectoredExceptionHandler FALSE Callback.my_vectored_handler,
        Event.printf "C++ exception inbound\n",
        Event.fault Fault.cppThrow,
        Event.printf "Vectored exception handler\n"],
       Status.exited 1⟩ ∧
    "C++ exception performed\n" ∉
      output (main windows ["crash.exe", "--cpph", "--vectored0"]).trace :=
  ⟨by decide, by decide, by decide⟩

theorem usage_output_no_marker (P : Platform) (argv : List String) (h : argv.length = 1)
    (s : String) (hs : s ≠ USAGE) : s ∉ output (main P argv).trace := by
  rw [main_eq, if_pos h]
  simpa [output] using hs

set_option maxRecDepth 4000 in
theorem performed_ne_USAGE :
    "Segfault performed\n" ≠ USAGE ∧ "Abort performed\n" ≠ USAGE ∧
    "C++ unhandled exception performed\n" ≠ USAGE ∧ "Pure virtual call performed\n" ≠ USAGE := by
  decide

theorem output_flushed_subset (t : List Event) (s : String) (h : s ∈ output (flushed t)) :
    s ∈ output t := by
  rw [mem_output] at h ⊢
  induction t with
  | nil => simp [flushed] at h
  | cons e t ih =>
    unfold flushed at h
    split at h
    · rcases List.mem_cons.1 h with h1 | h1
      · exact h1 ▸ List.mem_cons_self _ _
      · exact List.mem_cons_of_mem _ (ih h1)
    · simp at h

theorem delivered_subset (buffered : Bool) (o : Outcome) (s : String)
    (h : s ∈ delivered buffered o) : s ∈ output o.trace := by
  unfold delivered at h
  split at h
  · exact h
  · split at h
    · exact output_flushed_subset _ _ h
    · exact h

theorem delivered_eq_output (buffered : Bool) (o : Outcome)
    (h : buffered = false ∨ ∃ code, o.status = Status.exited code) :
    delivered buffered o = output o.trace := by
  unfold delivered
  rcases h with h | ⟨code, h⟩
  · subst h
    split <;> simp
  · rw [h]

theorem markers_of_output (buffered : Bool) (o : Outcome) (inbound performed : String)
    (argc : Prop) (h : (argc → inbound ∈ output o.trace) ∧ performed ∉ output o.trace) :
    (argc → inbound ∈ output o.trace) ∧
    (argc → (buffered = false ∨ ∃ code, o.status = Status.exited code) →
      inbound ∈ delivered buffered o) ∧
    performed ∉ output o.trace ∧
    performed ∉ delivered buffered o :=
  ⟨h.1, fun ha hd => by rw [delivered_eq_output buffered o hd]; exact h.1 ha, h.2,
   fun hp => h.2 (delivered_subset buffered o _ hp)⟩

theorem fault_routine_markers (P : Platform) (argv : List String) :
    ((parse_arguments argv).error = ErrorType.SEGFAULT →
      (argv.length ≠ 1 → "Segfault inbound\n" ∈ output (main P argv).trace) ∧
      "Segfault performed\n" ∉ output (main P argv).trace) ∧
    ((parse_arguments argv).error = ErrorType.ABORT → P.ndebug = false →
      (argv.length ≠ 1 → "Abort inbound\n" ∈ output (main P argv).trace) ∧
      "Abort performed\n" ∉ output (main P argv).trace) ∧
    ((parse_arguments argv).error = ErrorType.CPP_UNHANDLED →
      (argv.length ≠ 1 → "C++ unhandled exception inbound\n" ∈ output (main P argv).trace) ∧
      "C++ unhandled exception performed\n" ∉ output (main P argv).trace) ∧
    ((parse_arguments argv).error = ErrorType.PVC →
      (argv.length ≠ 1 → "Pure virtual call inbound\n" ∈ output (main P argv).trace) ∧
      "Pure virtual call performed\n" ∉ output (main P argv).trace) := by
  by_cases hargc : argv.length = 1
  · exact ⟨fun _ => ⟨fun h => absurd hargc h,
        usage_output_no_marker P argv hargc _ performed_ne_USAGE.1⟩,
      fun _ _ => ⟨fun h => absurd hargc h,
        usage_output_no_marker P argv hargc _ performed_ne_USAGE.2.1⟩,
      fun _ => ⟨fun h => absurd hargc h,
        usage_output_no_marker P argv hargc _ performed_ne_USAGE.2.2.1⟩,
      fun _ => ⟨fun h => absurd hargc h,
        usage_output_no_marker P argv hargc _ performed_ne_USAGE.2.2.2⟩⟩
  · simp only [mem_main_output P argv hargc]
    refine ⟨fun h => ?_, fun h hn => ?_, fun h => ?_, fun h => ?_⟩
    · rw [dispatch_SEGFAULT _ _ _ h]
      exact And.imp_left (fun ha _ => ha)
        (run_routine_fault P _ _ _ _ Fault.accessViolation _
          (routine_SEGFAULT_eq P _) (by decide) (by decide) (by intro h; cases h <;> decide))
    · rw [dispatch_ABORT _ _ _ h]
      exact And.imp_left (fun ha _ => ha)
        (run_routine_fault P _ _ _ _ Fault.assertFailure _
          (fun fr => routine_ABORT_eq P _ fr hn) (by decide) (by decide)
          (by intro h; cases h <;> decide))
    · rw [dispatch_CPP_UNHANDLED _ _ _ h]
      exact And.imp_left (fun ha _ => ha)
        (run_routine_fault P _ _ _ _ Fault.cppThrow _
          (routine_CPP_UNHANDLED_eq P _) (by decide) (by decide) (by intro h; cases h <;> decide))
    · rw [dispatch_PVC _ _ _ h]
      exact And.imp_left (fun ha _ => ha)
        (run_routine_fault P _ _ _ _ Fault.pureVirtualCall _
          (routine_PVC_eq P _) (by decide) (by decide) (by intro h; cases h <;> decide))

/-- C6, as amended: in every run whose resolved fault class is SEGFAULT,
CPP_UNHANDLED or PVC, or ABORT in a build where the assertion is active (NDEBUG
not defined), on every platform and for every catch method, guard and threading
choice: the performed line of the routine is never printed, so it never reaches
the reader of stdout; the inbound line is printed whenever main gets to resolve
its arguments (argc is not 1), and it reaches the reader of stdout when the
process ends through exit or stdout is not fully buffered. -/
theorem fault_routine_never_performed (P : Platform) (argv : List String) (buffered : Bool) :
    ((parse_arguments argv).error = ErrorType.SEGFAULT →
      (argv.length ≠ 1 → "Segfault inbound\n" ∈ output (main P argv).trace) ∧
      (argv.length ≠ 1 →
        (buffered = false ∨ ∃ code, (main P argv).status = Status.exited code) →
        "Segfault inbound\n" ∈ delivered buffered (main P argv)) ∧
      "Segfault performed\n" ∉ output (main P argv).trace ∧
      "Segfault performed\n" ∉ delivered buffered (main P argv)) ∧
    ((parse_arguments argv).error = ErrorType.ABORT → P.ndebug = false →
      (argv.length ≠ 1 → "Abort inbound\n" ∈ output (main P argv).trace) ∧
      (argv.length ≠ 1 →
        (buffered = false ∨ ∃ code, (main P argv).status = Status.exited code) →
        "Abort inbound\n" ∈ delivered buffered (main P argv)) ∧
      "Abort performed\n" ∉ output (main P argv).trace ∧
      "Abort performed\n" ∉ delivered buffered (main P argv)) ∧
    ((parse_arguments argv).error = ErrorType.CPP_UNHANDLED →
      (argv.length ≠ 1 → "C++ unhandled exception inbound\n" ∈ output (main P argv).trace) ∧
      (argv.length ≠ 1 →
        (buffered = false ∨ ∃ code, (main P argv).status = Status.exited code) →
        "C++ unhandled exception inbound\n" ∈ delivered buffered (main P argv)) ∧
      "C++ unhandled exception performed\n" ∉ output (main P argv).trace ∧
      "C++ unhandled exception performed\n" ∉ delivered buffered (main P argv)) ∧
    ((parse_arguments argv).error = ErrorType.PVC →
      (argv.length ≠ 1 → "Pure virtual call inbound\n" ∈ output (main P argv).trace) ∧
      (argv.length ≠ 1 →
        (buffered = false ∨ ∃ code, (main P argv).status = Status.exited code) →
        "Pure virtual call inbound\n" ∈ delivered buffered (main P argv)) ∧
      "Pure virtual call performed\n" ∉ output (main P argv).trace ∧
      "Pure virtual call performed\n" ∉ delivered buffered (main P argv)) :=
  ⟨fun h => markers_of_output buffered _ _ _ _ ((fault_routine_markers P argv).1 h),
   fun h hn => markers_of_output buffered _ _ _ _ ((fault_routine_markers P argv).2.1 h hn),
   fun h => markers_of_output buffered _ _ _ _ ((fault_routine_markers P argv).2.2.1 h),
   fun h => markers_of_output buffered _ _ _ _ ((fault_routine_markers P argv).2.2.2 h)⟩

theorem fault_routine_never_performed_witness :
    "Abort inbound\n" ∈ delivered true (main windows ["crash.exe", "-a", "--signal", "-t"]) ∧
    "Abort performed\n" ∉ output (main windows ["crash.exe", "-a", "--signal", "-t"]).trace ∧
    "Abort performed\n" ∉ delivered true (main windows ["crash.exe", "-a", "--signal", "-t"]) :=
  ⟨((fault_routine_never_performed windows ["crash.exe", "-a", "--signal", "-t"] true).2.1
      (by decide) (by decide)).2.1 (by decide) (Or.inr ⟨1, by decide⟩),
   ((fault_routine_never_performed windows ["crash.exe", "-a", "--signal", "-t"] true).2.1
      (by decide) (by decide)).2.2.1,
   ((fault_routine_never_performed windows ["crash.exe", "-a", "--signal", "-t"] true).2.1
      (by decide) (by decide)).2.2.2⟩

/-- C6, as stated, fails in two ways.  In a build with NDEBUG defined
`assert(false)` expands to nothing: with the argument `-a` the resolved fault
class is ABORT, the routine prints `Abort performed` and main returns 0.  And a
killed process does not flush stdout: with the argument `-s` and no handler the
process is killed by the access violation, and with stdout fully buffered the
inbound line, although printed, never reaches the reader. -/
theorem fault_routine_counterexample :
    ((parse_arguments ["crash.exe", "-a"]).error = ErrorType.ABORT ∧
      main (windows_build true) ["crash.exe", "-a"] =
        ⟨[Event.printf "Abort inbound\n", Event.printf "Abort performed\n"],
         Status.exited 0⟩ ∧
      "Abort performed\n" ∈ output (main (windows_build true) ["crash.exe", "-a"]).trace) ∧
    ((parse_arguments ["crash.exe", "-s"]).error = ErrorType.SEGFAULT ∧
      main windows ["crash.exe", "-s"] =
        ⟨[Event.printf "Segfault inbound\n", Event.fault Fault.accessViolation],
         Status.killed Fault.accessViolation⟩ ∧
      delivered true (main windows ["crash.exe", "-s"]) = [] ∧
      "Segfault inbound\n" ∉ delivered true (main windows ["crash.exe", "-s"])) :=
  ⟨⟨by decide, by decide, by decide⟩, ⟨by decide, by decide, by decide, by decide⟩⟩

/-- C7: on Windows, in every run with seh set, fault class SEGFAULT and catch
method NONE, on either execution context, the lines printed are exactly
`Segfault inbound` and `Epic SEH Handler` (so `Segfault performed` is not
printed), the wrapped routine returns (a worker is joined) and main ends with
exit status 0. -/
theorem local_guard_intercepts_segfault (argv : List String)
    (hseh : (parse_arguments argv).seh = true)
    (herr : (parse_arguments argv).error = ErrorType.SEGFAULT)
    (hcm : (parse_arguments argv).catch_method = CatchMethod.NONE) :
    output (main windows argv).trace = ["Segfault inbound\n", "Epic SEH Handler\n"] ∧
    (main windows argv).status = Status.exited 0 ∧
    ((parse_arguments argv).threading = true →
      (main windows argv).trace.getLast? = some Event.thread_join) ∧
    ((parse_arguments argv).threading = false →
      (main windows argv).trace.getLast? = some (Event.printf "Epic SEH Handler\n")) := by
  have hargc : argv.length ≠ 1 :=
    length_ne_one_of_seh argv hseh (by rw [herr]; decide)
  rw [main_eq, if_neg hargc]
  generalize parse_arguments argv = args at hseh herr hcm
  obtain ⟨t, s, e, c⟩ := args
  simp only at hseh herr hcm
  subst hseh herr hcm
  cases t <;> decide

theorem local_guard_intercepts_segfault_witness :
    output (main windows ["crash.exe", "-t", "--seh", "-s"]).trace =
      ["Segfault inbound\n", "Epic SEH Handler\n"] ∧
    (main windows ["crash.exe", "-t", "--seh", "-s"]).status = Status.exited 0 :=
  ⟨(local_guard_intercepts_segfault ["crash.exe", "-t", "--seh", "-s"]
      (by decide) (by decide) (by decide)).1,
   (local_guard_intercepts_segfault ["crash.exe", "-t", "--seh", "-s"]
      (by decide) (by decide) (by decide)).2.1⟩

/-- C8, as amended: on Windows, in every run with catch method SIGNAL and no
local guard: for the fault class SEGFAULT raised on the main context, in either
build, the lines printed are `Segfault inbound` and then `SIGSEGV HANDLED` and
the exit status is the handler's 1; for the fault class ABORT in a build where
the assertion is active (NDEBUG not defined), on either context, the lines are
`Abort inbound` and then `SIGABRT HANDLED` and the exit status is 1.  Both
runs end through exit, so the lines printed are the lines that reach the reader
of stdout, whatever its buffering. -/
theorem signal_handler_run (ndebug : Bool) (argv : List String) (buffered : Bool)
    (hcm : (parse_arguments argv).catch_method = CatchMethod.SIGNAL)
    (hseh : (parse_arguments argv).seh = false) :
    ((parse_arguments argv).error = ErrorType.SEGFAULT →
      (parse_arguments argv).threading = false →
      output (main (windows_build ndebug) argv).trace =
        ["Segfault inbound\n", "SIGSEGV HANDLED\n"] ∧
      delivered buffered (main (windows_build ndebug) argv) =
        ["Segfault inbound\n", "SIGSEGV HANDLED\n"] ∧
      (main (windows_build ndebug) argv).status = Status.exited 1) ∧
    ((parse_arguments argv).error = ErrorType.ABORT → ndebug = false →
      output (main (windows_build ndebug) argv).trace =
        ["Abort inbound\n", "SIGABRT HANDLED\n"] ∧
      delivered buffered (main (windows_build ndebug) argv) =
        ["Abort inbound\n", "SIGABRT HANDLED\n"] ∧
      (main (windows_build ndebug) argv).status = Status.exited 1) := by
  constructor
  · intro herr hthr
    have hargc : argv.length ≠ 1 :=
      length_ne_one_of_catch argv (by rw [hcm]; decide) (by rw [herr]; decide)
    rw [main_eq, if_neg hargc]
    generalize parse_arguments argv = args at hseh herr hcm hthr
    obtain ⟨t, s, e, c⟩ := args
    simp only at hseh herr hcm hthr
    subst hseh herr hcm hthr
    cases ndebug <;> cases buffered <;> decide
  · intro herr hn
    have hargc : argv.length ≠ 1 :=
      length_ne_one_of_catch argv (by rw [hcm]; decide) (by rw [herr]; decide)
    rw [main_eq, if_neg hargc]
    generalize parse_arguments argv = args at hseh herr hcm
    obtain ⟨t, s, e, c⟩ := args
    simp only at hseh herr hcm
    subst hseh herr hcm hn
    cases t <;> cases buffered <;> decide

theorem signal_handler_run_witness :
    (output (main (windows_build false) ["crash.exe", "-s", "--signal"]).trace =
        ["Segfault inbound\n", "SIGSEGV HANDLED\n"] ∧
      delivered true (main (windows_build false) ["crash.exe", "-s", "--signal"]) =
        ["Segfault inbound\n", "SIGSEGV HANDLED\n"] ∧
      (main (windows_build false) ["crash.exe", "-s", "--signal"]).status = Status.exited 1) ∧
    (output (main (windows_build false) ["crash.exe", "-a", "--signal", "-t"]).trace =
        ["Abort inbound\n", "SIGABRT HANDLED\n"] ∧
      delivered true (main (windows_build false) ["crash.exe", "-a", "--signal", "-t"]) =
        ["Abort inbound\n", "SIGABRT HANDLED\n"] ∧
      (main (windows_build false) ["crash.exe", "-a", "--signal", "-t"]).status =
        Status.exited 1) :=
  ⟨(signal_handler_run false ["crash.exe", "-s", "--signal"] true (by decide) (by decide)).1
      (by decide) (by decide),
   (signal_handler_run false ["crash.exe", "-a", "--signal", "-t"] true (by decide)
      (by decide)).2 (by decide) rfl⟩

/-- C8, as stated, fails in two ways.  With the arguments `-s --signal -t` the
catch method is SIGNAL, the fault class is SEGFAULT and there is no local guard,
but the access violation happens on the worker, where the SIGSEGV handler
registered by the main thread is not in effect: `SIGSEGV HANDLED` is not printed
and the process is killed instead of exiting with status 1.  And in a build
with NDEBUG defined `assert(false)` expands to nothing: with the arguments
`-a --signal` the routine prints `Abort performed`, no signal is raised and main
returns 0. -/
theorem signal_handler_worker_counterexample :
    (parse_arguments ["crash.exe", "-s", "--signal", "-t"] =
      { threading := true, seh := false, error := ErrorType.SEGFAULT,
        catch_method := CatchMethod.SIGNAL } ∧
    main windows ["crash.exe", "-s", "--signal", "-t"] =
      ⟨[Event.signal Signal.SIGSEGV Callback._sigsegvhandler,
        Event.signal Signal.SIGABRT Callback._sigaborthandler,
        Event.thread_start,
        Event.printf "Segfault inbound\n",
        Event.fault Fault.accessViolation],
       Status.killed Fault.accessViolation⟩ ∧
    "SIGSEGV HANDLED\n" ∉ output (main windows ["crash.exe", "-s", "--signal", "-t"]).trace) ∧
    (parse_arguments ["crash.exe", "-a", "--signal"] =
      { threading := false, seh := false, error := ErrorType.ABORT,
        catch_method := CatchMethod.SIGNAL } ∧
    main (windows_build true) ["crash.exe", "-a", "--signal"] =
      ⟨[Event.signal Signal.SIGSEGV Callback._sigsegvhandler,
        Event.signal Signal.SIGABRT Callback._sigaborthandler,
        Event.printf "Abort inbound\n",
        Event.printf "Abort performed\n"],
       Status.exited 0⟩ ∧
    "SIGABRT HANDLED\n" ∉
      output (main (windows_build true) ["crash.exe", "-a", "--signal"]).trace) :=
  ⟨⟨by decide, by decide, by decide⟩, ⟨by decide, by decide, by decide⟩⟩

/-- C9: for every argument vector parse_arguments returns a catch_method among
the five enumerators and an error among the six, so the first switch of main
never takes its default branch (it never ends the run) and, on every platform,
main ends with exit status 2 only past the usage guard with the fault class
NONE, the diagnostic being the last event. -/
theorem default_branches_unreachable (P : Platform) (argv : List String) :
    (parse_arguments argv).catch_method ∈
      [CatchMethod.NONE, CatchMethod.VECTORED0, CatchMethod.VECTORED1, CatchMethod.SUHF,
       CatchMethod.SIGNAL] ∧
    (parse_arguments argv).error ∈
      [ErrorType.NONE, ErrorType.SEGFAULT, ErrorType.ABORT, ErrorType.CPP_UNHANDLED,
       ErrorType.CPP_HANDLED, ErrorType.PVC] ∧
    (install_switch (parse_arguments argv).catch_method {}).2.ctl = Ctl.normal ∧
    ((main P argv).status = Status.exited 2 →
      argv.length ≠ 1 ∧ (parse_arguments argv).error = ErrorType.NONE ∧
      (main P argv).trace.getLast? = some (Event.printf "Specify crash method!\n")) := by
  have hk := parse_arguments_enumerators argv
  refine ⟨hk.2, hk.1, by rw [install_switch_enumerator _ hk.2], ?_⟩
  intro hs
  have hargc : argv.length ≠ 1 := by
    intro h
    rw [main_eq, if_pos h] at hs
    exact absurd hs (by decide)
  rw [main_eq, if_neg hargc, run_args_eq P _ hk.2] at hs ⊢
  by_cases he : (parse_arguments argv).error = ErrorType.NONE
  · refine ⟨hargc, he, ?_⟩
    rw [dispatch_NONE P _ _ he]
    simp [Run.finish]
  · exact absurd hs (finish_status_ne _ (dispatch_quiet P _ _ he hk.1).2)

theorem default_branches_unreachable_witness :
    (main windows ["crash.exe", "--suhf", "-t"]).trace.getLast? =
      some (Event.printf "Specify crash method!\n") :=
  ((default_branches_unreachable windows ["crash.exe", "--suhf", "-t"]).2.2.2
    (by decide)).2.2

/-- C10: parse_arguments reads the program name as a flag.  For the argument
vector `-s`, `x` (argc = 2, and `x` is no flag) the resolved fault class is
SEGFAULT and, on every platform, main reaches the fault statement of the
segfault routine and does not end with exit status 2; parsing the vector
without its first entry gives the fault class NONE, a different result. -/
theorem program_name_parsed_as_flag (P : Platform) :
    ["-s", "x"].length = 2 ∧
    (faultFlag "x" = none ∧ mechanismFlag "x" = none ∧ threadFlag "x" = false ∧
      sehFlag "x" = false) ∧
    (parse_arguments ["-s", "x"]).error = ErrorType.SEGFAULT ∧
    Event.printf "Segfault inbound\n" ∈ (main P ["-s", "x"]).trace ∧
    Event.fault Fault.accessViolation ∈ (main P ["-s", "x"]).trace ∧
    (main P ["-s", "x"]).status ≠ Status.exited 2 ∧
    (parse_arguments (["-s", "x"].tail)).error = ErrorType.NONE ∧
    parse_arguments ["-s", "x"] ≠ parse_arguments (["-s", "x"].tail) := by
  have herr : (parse_arguments ["-s", "x"]).error = ErrorType.SEGFAULT := by decide
  have hargc : ["-s", "x"].length ≠ 1 := by decide
  refine ⟨rfl, by decide, herr, ?_, ?_, ?_, by decide, by decide⟩
  · rw [main_trace P _ hargc, dispatch_SEGFAULT P _ _ herr]
    apply List.mem_append_right
    apply mem_run_routine
    intro fr
    rw [routine_SEGFAULT_eq]
    exact List.mem_cons_self _ _
  · rw [main_trace P _ hargc, dispatch_SEGFAULT P _ _ herr]
    apply List.mem_append_right
    apply mem_run_routine
    intro fr
    rw [routine_SEGFAULT_eq]
    exact List.mem_cons_of_mem _ (fault_mem_raise P _ fr _)
  · rw [main_eq, if_neg hargc, run_args_eq P _ (parse_arguments_enumerators _).2]
    exact finish_status_ne _
      (dispatch_quiet P _ _ (by rw [herr]; decide) (parse_arguments_enumerators _).1).2

theorem program_name_parsed_as_flag_witness :
    (parse_arguments ["-s", "x"]).error = ErrorType.SEGFAULT ∧
    Event.printf "Segfault inbound\n" ∈ (main windows ["-s", "x"]).trace :=
  ⟨(program_name_parsed_as_flag windows).2.2.1, (program_name_parsed_as_flag windows).2.2.2.1⟩

end Crash
